import Mathlib

/-!
Shallow embedding of the Kairos restaurant-recommendation pipeline
(`src/Agent/app`), covering the data tables and pure logic of
`utils/allergy_data.py`, `services/allergy_guard.py`, `services/fit_scorer.py`,
`services/hybrid_search.py`, `services/orchestrator.py` and
`services/recommendation_service.py`, together with theorems checking the
specification claims against this embedding.

External collaborators (relational store, vector index, LLM gateway) are
modelled as inputs: a function receives the rows / metadata / plans those
collaborators would return, and the embedded code mirrors the Python that
consumes them.  Python floats that only ever get compared and negated
(ratings) are modelled as rationals; Python stable `list.sort(key=...)` is
modelled by `List.insertionSort` with the non-strict key order, which is
stable in the same sense.
-/

instance {ε α : Type} [DecidableEq ε] [DecidableEq α] : DecidableEq (Except ε α) :=
  fun a b =>
    match a, b with
    | .error e1, .error e2 =>
        if h : e1 = e2 then isTrue (by rw [h]) else isFalse (by simp [h])
    | .ok v1, .ok v2 =>
        if h : v1 = v2 then isTrue (by rw [h]) else isFalse (by simp [h])
    | .error _, .ok _ => isFalse (by simp)
    | .ok _, .error _ => isFalse (by simp)

namespace Kairos

/- ═══════════════ string helpers (ASCII semantics of str.lower / str.title /
   the `in` substring test, and code-point ordering used by sorted()) ═══════ -/

/-- ASCII lower-casing of one character, as Python `str.lower` acts on ASCII. -/
def lowerChar (c : Char) : Char :=
  if 65 ≤ c.toNat && c.toNat ≤ 90 then Char.ofNat (c.toNat + 32) else c

/-- ASCII upper-casing of one character. -/
def upperChar (c : Char) : Char :=
  if 97 ≤ c.toNat && c.toNat ≤ 122 then Char.ofNat (c.toNat - 32) else c

/-- Python `s.lower()` (ASCII fragment). -/
def strLower (s : String) : String := ⟨s.data.map lowerChar⟩

def isAsciiAlpha (c : Char) : Bool :=
  (65 ≤ c.toNat && c.toNat ≤ 90) || (97 ≤ c.toNat && c.toNat ≤ 122)

def strTitleAux : Bool → List Char → List Char
  | _, [] => []
  | prevAlpha, c :: cs =>
      let cNew := if isAsciiAlpha c then (if prevAlpha then lowerChar c else upperChar c) else c
      cNew :: strTitleAux (isAsciiAlpha c) cs

/-- Python `s.title()` (ASCII fragment): first letter of each word upper-cased. -/
def strTitle (s : String) : String := ⟨strTitleAux false s.data⟩

def listIsPrefixOfB : List Char → List Char → Bool
  | [], _ => true
  | _ :: _, [] => false
  | a :: as, b :: bs => a == b && listIsPrefixOfB as bs

def listIsInfixOfB (needle : List Char) : List Char → Bool
  | [] => listIsPrefixOfB needle []
  | hay@(_ :: rest) => listIsPrefixOfB needle hay || listIsInfixOfB needle rest

/-- Python `needle in hay` on strings (substring test). -/
def pyIn (needle hay : String) : Bool := listIsInfixOfB needle.data hay.data

def natListLtb : List Nat → List Nat → Bool
  | [], [] => false
  | [], _ :: _ => true
  | _ :: _, [] => false
  | a :: as, b :: bs => if a < b then true else if b < a then false else natListLtb as bs

/-- Strict code-point ordering on strings, as Python compares strings. -/
def strLtb (a b : String) : Bool := natListLtb (a.data.map Char.toNat) (b.data.map Char.toNat)

def strLeb (a b : String) : Bool := !(strLtb b a)

/-- Python `sorted(list_of_strings)`. -/
def sortedStrings (l : List String) : List String :=
  List.insertionSort (fun a b => strLeb a b = true) l

/-- First-occurrence deduplication, preserving order.  Models the set of the
elements of a Python list with a deterministic iteration order (the claims
settled here never depend on Python set iteration order, only on membership
and cardinality). -/
def firstDedup : List String → List String
  | [] => []
  | a :: as => a :: (firstDedup as).filter (fun b => b ≠ a)

/-- `{x.lower() for x in l}`, as an order-deterministic duplicate-free list. -/
def pySetLower (l : List String) : List String := firstDedup (l.map strLower)

/-- `set(l)` without lower-casing. -/
def pySet (l : List String) : List String := firstDedup l

/-- Intersection of two Python sets represented as duplicate-free lists. -/
def setInter (s t : List String) : List String := s.filter (fun a => t.contains a)

/- ═══════════════ app/utils/allergy_data.py ═══════════════ -/

/-- `SEVERITY_LEVELS = ["anaphylactic", "severe", "moderate", "intolerance"]`
    (the literal list order of the source file). -/
def SEVERITY_LEVELS : List String := ["anaphylactic", "severe", "moderate", "intolerance"]

/-- `_SEVERITY_RANK = {level: i for i, level in enumerate(SEVERITY_LEVELS)}`
    read through `.get(severity, 0)`. -/
def severityRank (s : String) : Nat := (SEVERITY_LEVELS.indexOf? s).getD 0

structure WarningTemplate where
  level : String
  emoji : String
  title : String
  message : String → String

/-- `ALLERGY_WARNINGS[severity]`; only the four severity keys are ever looked
up (build_warning normalises first), the catch-all branch is unreachable. -/
def ALLERGY_WARNINGS (severity : String) : WarningTemplate :=
  if severity = "anaphylactic" then
    { level := "danger", emoji := "🚨", title := "Anaphylaxis Risk",
      message := fun allergen =>
        "This restaurant may contain " ++ allergen ++
        ". Given your severe allergy, we strongly recommend calling ahead to confirm before visiting." }
  else if severity = "severe" then
    { level := "warning", emoji := "⚠️", title := "Allergy Warning",
      message := fun allergen =>
        "This restaurant likely serves dishes containing " ++ allergen ++
        ". Please inform the staff of your allergy when you arrive." }
  else if severity = "moderate" then
    { level := "caution", emoji := "⚡", title := "Heads Up",
      message := fun allergen =>
        "Some dishes here may contain " ++ allergen ++
        ". Ask your server about allergen-free options before ordering." }
  else
    { level := "info", emoji := "ℹ️", title := "Note",
      message := fun allergen =>
        "This restaurant serves dishes with " ++ allergen ++
        ". Allergen-free options may be available — worth checking with staff." }

def CONFIDENCE_NOTE : String :=
  "Allergen data for this restaurant is estimated from cuisine type — always confirm with staff before ordering."

/- ═══════════════ app/schemas/restaurant.py ═══════════════ -/

structure AllergyWarning where
  allergen : String
  severity : String
  level : String
  emoji : String
  title : String
  message : String
  confidence : String
  confidence_note : Option String := none
deriving DecidableEq

inductive MetaVal where
  | list (l : List String)
  | str (s : String)
  | other
deriving DecidableEq

structure RestaurantResult where
  id : Int
  name : String := ""
  area : Option String := none
  address : Option String := none
  price_tier : Option String := none
  rating : Option ℚ := none
  votes : Int := 0
  cuisine_types : List String := []
  url : Option String := none
  lat : Option ℚ := none
  lng : Option ℚ := none
  known_allergens : List String := []
  allergen_confidence : String := "low"
  meta : List (String × MetaVal) := []
  -- allergy fields — schema defaults before AllergyGuard runs
  allergy_safe : Bool := true
  allergy_warnings : List AllergyWarning := []
deriving DecidableEq

structure GenerativeUIPayload where
  ui_type : String
  message : String
  restaurants : List RestaurantResult := []
  flagged_restaurants : List RestaurantResult := []
  has_allergy_warnings : Bool := false
deriving DecidableEq

/- ═══════════════ app/services/allergy_guard.py ═══════════════ -/

/-- The `user_allergies` dict consumed through
`.get("confirmed", [])` / `.get("intolerances", [])` / `.get("severity", {})`. -/
structure UserAllergies where
  confirmed : List String := []
  intolerances : List String := []
  severity : List (String × String) := []
deriving DecidableEq

structure AllergyCheckResult where
  safe_restaurants : List RestaurantResult := []
  flagged_restaurants : List RestaurantResult := []
  has_any_warnings : Bool := false
deriving DecidableEq

/-- Insert-or-overwrite on an insertion-ordered dict. -/
def dictUpsert (m : List (String × String)) (k v : String) : List (String × String) :=
  if (m.lookup k).isSome then m.map (fun p => if p.1 = k then (k, v) else p)
  else m ++ [(k, v)]

/-- `dict.setdefault`. -/
def dictSetdefault (m : List (String × String)) (k v : String) : List (String × String) :=
  if (m.lookup k).isSome then m else m ++ [(k, v)]

/-- `all_user_allergens = {a: severity_map.get(a, "severe") for a in confirmed}`
followed by `setdefault(intol, "intolerance")` for each intolerance. -/
def allUserAllergens (ua : UserAllergies) : List (String × String) :=
  let base := ua.confirmed.foldl
    (fun m a => dictUpsert m a ((ua.severity.lookup a).getD "severe")) []
  ua.intolerances.foldl (fun m a => dictSetdefault m a "intolerance") base

/-- `AllergyGuard.build_warning`. -/
def build_warning (allergen severity confidence : String) : AllergyWarning :=
  -- normalise severity to a known level, default "severe"
  let severityN := if (SEVERITY_LEVELS.indexOf? severity).isSome then severity else "severe"
  let template := ALLERGY_WARNINGS severityN
  { allergen := allergen
    severity := severityN
    level := template.level
    emoji := template.emoji
    title := template.title
    message := template.message allergen
    confidence := confidence
    confidence_note := if confidence ≠ "high" then some CONFIDENCE_NOTE else none }

/-- `AllergyGuard._annotate`: build the matching warnings, sort them with
`warnings.sort(key=lambda w: _SEVERITY_RANK.get(w.severity, 0), reverse=True)`
(a stable sort, descending in the code rank), set `allergy_safe`. -/
def annotate (user_allergens : List (String × String)) (restaurant : RestaurantResult) :
    RestaurantResult :=
  let warnings :=
    (user_allergens.filter (fun p => restaurant.known_allergens.contains p.1)).map
      (fun p => build_warning p.1 p.2 restaurant.allergen_confidence)
  let warnings := List.insertionSort
    (fun w1 w2 => severityRank w2.severity ≤ severityRank w1.severity) warnings
  { restaurant with
      allergy_warnings := warnings
      allergy_safe := warnings.isEmpty }

/-- The `is_flagged` test of `AllergyGuard.check` (rule 2:
anaphylactic severity and high confidence on some warning). -/
def isFlagged (r : RestaurantResult) : Bool :=
  r.allergy_warnings.any (fun w => w.severity == "anaphylactic" && w.confidence == "high")

/-- `AllergyGuard._sort_key`: `(is_unsafe, worst_severity_rank)` where the
worst rank is `max(_SEVERITY_RANK.get(w.severity, 0) for w in warnings, default=0)`. -/
def sortKey (r : RestaurantResult) : Nat × Nat :=
  if r.allergy_safe then (0, 0)
  else (1, (r.allergy_warnings.map (fun w => severityRank w.severity)).foldl max 0)

def sortKeyLe (r1 r2 : RestaurantResult) : Prop :=
  (sortKey r1).1 < (sortKey r2).1 ∨
    ((sortKey r1).1 = (sortKey r2).1 ∧ (sortKey r1).2 ≤ (sortKey r2).2)

instance : DecidableRel sortKeyLe := fun r1 r2 => by
  unfold sortKeyLe; infer_instance

/-- The body of the `for restaurant in restaurants:` loop of
`AllergyGuard.check`, over the accumulator (safe_list, flagged_list, has_any). -/
def checkStep (all_user_allergens : List (String × String))
    (acc : List RestaurantResult × List RestaurantResult × Bool)
    (restaurant : RestaurantResult) :
    List RestaurantResult × List RestaurantResult × Bool :=
  let annotated := annotate all_user_allergens restaurant
  let has_any := acc.2.2 || !annotated.allergy_warnings.isEmpty
  if isFlagged annotated then (acc.1, acc.2.1 ++ [annotated], has_any)
  else (acc.1 ++ [annotated], acc.2.1, has_any)

/-- `AllergyGuard.check`: the per-candidate loop (annotate, record warnings,
route to flagged or safe), then the stable sort of the safe list by
`_sort_key`. -/
def check (restaurants : List RestaurantResult) (user_allergies : UserAllergies) :
    AllergyCheckResult :=
  let folded := restaurants.foldl (checkStep (allUserAllergens user_allergies)) ([], [], false)
  { safe_restaurants := List.insertionSort sortKeyLe folded.1
    flagged_restaurants := folded.2.1
    has_any_warnings := folded.2.2 }

/- ═══════════════ app/schemas/recommendation.py (the parts FitScorer reads) ═══ -/

structure FitTag where
  label : String
  type : String
deriving DecidableEq

structure FitResult where
  score : Int
  fit_tags : List FitTag
deriving DecidableEq

/-- The flattened `UserProfile` built by `_fetch_user_profile`; `preferences`
is only read through `preferences.get("price_comfort", [])`, which is kept as
its own field. -/
structure UserProfile where
  preferences_price_comfort : List String := []
  allergies : UserAllergies := {}
  allergy_flags : List String := []
  dietary_flags : List String := []
  vibe_tags : List String := []
  preferred_price_tiers : List String := []
  cuisine_affinity : List String := []
  cuisine_aversion : List String := []
deriving DecidableEq

/- ═══════════════ app/services/fit_scorer.py ═══════════════ -/

def TIER_ORDER : List String := ["$", "$$", "$$$", "$$$$"]

/-- Collect meta values under a prioritized list of keys, list values extend,
string values append — the shared pattern of `_score_vibe` / `_score_dietary`. -/
def collectMetaKeys (meta : List (String × MetaVal)) (keys : List String) : List String :=
  keys.foldl
    (fun acc key =>
      match meta.lookup key with
      | some (MetaVal.list l) => acc ++ l
      | some (MetaVal.str s) => acc ++ [s]
      | _ => acc)
    []

/-- `FitScorer._score_cuisine`: up to 30 pts, −10 for an aversion match. -/
def score_cuisine (restaurant : RestaurantResult) (profile : UserProfile) :
    Int × Option FitTag :=
  let cuisine_types := pySetLower restaurant.cuisine_types
  let affinity := pySetLower profile.cuisine_affinity
  let aversion := pySetLower profile.cuisine_aversion
  if affinity.isEmpty && aversion.isEmpty then (0, none)
  else if !(setInter cuisine_types aversion).isEmpty then (-10, none)
  else if affinity.isEmpty then (0, none)
  else
    let overlap := setInter cuisine_types affinity
    if overlap.isEmpty then (0, none)
    else
      let pts : Int := if overlap.length ≥ cuisine_types.length then 30 else 15
      let first_match := overlap.headD ""
      (pts, some { label := "Matches your " ++ strTitle first_match ++ " preference"
                   type := "cuisine" })

/-- `FitScorer._score_vibe`: +5 per overlapping vibe tag, capped at 25. -/
def score_vibe (restaurant : RestaurantResult) (profile : UserProfile) :
    Int × Option FitTag :=
  let user_vibes := pySetLower profile.vibe_tags
  if user_vibes.isEmpty then (0, none)
  else
    let restaurant_vibes_raw :=
      collectMetaKeys restaurant.meta ["vibes", "vibe_tags", "atmosphere", "tags"]
    let restaurant_vibes := pySetLower restaurant_vibes_raw
    let overlap := setInter user_vibes restaurant_vibes
    if overlap.isEmpty then (0, none)
    else
      let pts : Int := min 25 (overlap.length * 5)
      (pts, some { label := "Known for " ++ overlap.headD "" ++ " — your top vibe tag"
                   type := "vibe" })

/-- `FitScorer._score_price`: +20 exact tier, +10 adjacent tier (no tag),
0 otherwise.  `not restaurant.price_tier` is Python truthiness, so an empty
tier string behaves like a missing one. -/
def score_price (restaurant : RestaurantResult) (profile : UserProfile) :
    Int × Option FitTag :=
  let preferred := pySet (if profile.preferred_price_tiers.isEmpty
    then profile.preferences_price_comfort else profile.preferred_price_tiers)
  let tierOpt := match restaurant.price_tier with
    | some t => if t = "" then none else some t
    | none => none
  match tierOpt with
  | none => (0, none)
  | some tier =>
    if preferred.isEmpty then (0, none)
    else if preferred.contains tier then
      (20, some { label := "Within your " ++ tier ++ " comfort zone", type := "price" })
    else
      match TIER_ORDER.indexOf? tier with
      | none => (0, none)
      | some r_idx =>
        if preferred.any (fun p_tier =>
            match TIER_ORDER.indexOf? p_tier with
            | some p_idx => ((r_idx : Int) - (p_idx : Int)).natAbs = 1
            | none => false)
        then (10, none) else (0, none)

/-- `FitScorer._score_dietary`: +5 per matching dietary flag (including the
"vegan"/"vegetarian" cuisine-name substring heuristics), capped at 15. -/
def score_dietary (restaurant : RestaurantResult) (profile : UserProfile) :
    Int × Option FitTag :=
  let user_dietary := pySetLower profile.dietary_flags
  if user_dietary.isEmpty then (0, none)
  else
    let raw := collectMetaKeys restaurant.meta ["dietary", "dietary_flags", "dietaries"]
    let raw := restaurant.cuisine_types.foldl
      (fun acc cuisine =>
        let c := strLower cuisine
        let acc := if pyIn "vegan" c then acc ++ ["vegan"] else acc
        if pyIn "vegetarian" c then acc ++ ["vegetarian"] else acc)
      raw
    let restaurant_dietary := pySetLower raw
    let overlap := setInter user_dietary restaurant_dietary
    if overlap.isEmpty then (0, none)
    else
      (min 15 (overlap.length * 5),
       some { label := strTitle (overlap.headD "") ++ "-friendly", type := "dietary" })

/-- `FitScorer._score_allergy`: 10 for fully safe, 5 when only
intolerance-level warnings are present, 0 otherwise. -/
def score_allergy (restaurant : RestaurantResult) : Int × Option FitTag :=
  if restaurant.allergy_safe && restaurant.allergy_warnings.isEmpty then
    (10, some { label := "Safe for your allergy profile", type := "allergy_safe" })
  else if !restaurant.allergy_warnings.isEmpty then
    let severities := pySet (restaurant.allergy_warnings.map (fun w => w.severity))
    let dangerous := severities.filter (fun s => s ≠ "intolerance")
    if dangerous.isEmpty then (5, none) else (0, none)
  else (0, none)

/-- `FitScorer.score`: sum the five dimensions, clamp to [0, 100], and keep up
to 4 tags from the dimensions sorted by points descending (stable). -/
def score (restaurant : RestaurantResult) (profile : UserProfile) : FitResult :=
  let cuisine := score_cuisine restaurant profile
  let vibe := score_vibe restaurant profile
  let price := score_price restaurant profile
  let dietary := score_dietary restaurant profile
  let allergy := score_allergy restaurant
  let total := cuisine.1 + vibe.1 + price.1 + dietary.1 + allergy.1
  let total := max 0 (min 100 total)
  let dimension_scores := [cuisine, vibe, price, dietary, allergy]
  let dimension_scores := List.insertionSort
    (fun a b : Int × Option FitTag => b.1 ≤ a.1) dimension_scores
  { score := total
    fit_tags := (dimension_scores.filterMap (fun p => p.2)).take 4 }

/- ═══════════════ app/services/hybrid_search.py ═══════════════ -/

/-- One row of the `restaurants` SELECT, with the JSON array/object columns
already parsed (`_parse_json_field` is I/O glue around the row values). -/
structure Row where
  id : Int
  name : String := ""
  url : Option String := none
  address : Option String := none
  area : Option String := none
  cuisine_types : List String := []
  price_tier : Option String := none
  rating : Option ℚ := none
  votes : Option Int := none
  lat : Option ℚ := none
  lng : Option ℚ := none
  known_allergens : List String := []
  allergen_confidence : Option String := none
  meta : List (String × MetaVal) := []
deriving DecidableEq

/-- The scalar filter dict handed to `hybrid_search` (the keys it reads). -/
structure SqlFilters where
  price_tiers : List String := []
  cuisine_types : List String := []
  area : Option String := none
  min_rating : Option ℚ := none
  exclude_allergens : List String := []
deriving DecidableEq

/-- The vector-index collaborator as seen by `_chroma_query`: either the
nearest-neighbour sub-query raises, or it yields a review count and the
`restaurant_id` metadata entries of the most similar reviews. -/
inductive ChromaEnv where
  | err
  | ok (count : Nat) (metas : List (Option Int))
deriving DecidableEq

/-- The dedup loop of `_chroma_query` (first occurrence of each restaurant id
wins; the `seen` set is carried as the accumulated list itself). -/
def dedupIds (metas : List (Option Int)) : List Int :=
  metas.foldl
    (fun ids m =>
      match m with
      | some rid => if ids.contains rid then ids else ids ++ [rid]
      | none => ids)
    []

/-- `_chroma_query`: an unreachable index propagates its error (there is no
try/except around `asyncio.to_thread(_chroma_query)` in the source); an empty
collection yields no ids. -/
def chromaQuery : ChromaEnv → Except Unit (List Int)
  | .err => .error ()
  | .ok count metas => if count = 0 then .ok [] else .ok (dedupIds metas)

/-- `if query_embedding:` — Python truthiness, so an empty embedding list
counts as no embedding. -/
def truthyEmb : Option (List ℚ) → Bool
  | some l => !l.isEmpty
  | none => false

/-- `chroma_index.get(id, len(chroma_ranked_ids))`. -/
def chromaIdx (chroma_ranked_ids : List Int) (id : Int) : Nat :=
  (chroma_ranked_ids.indexOf? id).getD chroma_ranked_ids.length

/-- `-(float(rating) if rating else 0.0)` — 0.0 is falsy, which coincides
with substituting 0 for a missing rating. -/
def negRating (rating : Option ℚ) : ℚ := -(rating.getD 0)

/-- The step-4 composite sort key of one row. -/
def rowKey (chroma_ranked_ids : List Int) (row : Row) : Nat × ℚ :=
  (chromaIdx chroma_ranked_ids row.id, negRating row.rating)

def natRatLe (p q : Nat × ℚ) : Prop :=
  p.1 < q.1 ∨ (p.1 = q.1 ∧ p.2 ≤ q.2)

instance : DecidableRel natRatLe := fun p q => by
  unfold natRatLe; infer_instance

def rowKeyLe (chroma_ranked_ids : List Int) (r1 r2 : Row) : Prop :=
  natRatLe (rowKey chroma_ranked_ids r1) (rowKey chroma_ranked_ids r2)

instance (ids : List Int) : DecidableRel (rowKeyLe ids) := fun r1 r2 => by
  unfold rowKeyLe; infer_instance

/-- The final `RestaurantResult(...)` constructor of `hybrid_search`
(`row.rating` truthiness makes a 0.0 rating come out as null;
`row.allergen_confidence or "low"` makes a missing or empty confidence low). -/
def mk_restaurant_result (row : Row) : RestaurantResult :=
  { id := row.id
    name := row.name
    url := row.url
    address := row.address
    area := row.area
    price_tier := row.price_tier
    rating := match row.rating with
      | some r => if r = 0 then none else some r
      | none => none
    votes := (row.votes.getD 0)
    cuisine_types := row.cuisine_types
    lat := row.lat
    lng := row.lng
    known_allergens := row.known_allergens
    allergen_confidence := match row.allergen_confidence with
      | some c => if c = "" then "low" else c
      | none => "low"
    meta := row.meta }

/-- The Python-side array filter of step 3 (cuisine overlap required when a
cuisine filter is given; `exclude_allergens` enforced as a hard AND-NOT). -/
def rowPassesArrayFilters (sql_filters : SqlFilters) (row : Row) : Bool :=
  (sql_filters.cuisine_types.isEmpty ||
    sql_filters.cuisine_types.any (fun c => row.cuisine_types.contains c)) &&
  (sql_filters.exclude_allergens.isEmpty ||
    !(sql_filters.exclude_allergens.any (fun a => row.known_allergens.contains a)))

/-- `hybrid_search`: the embedding (already produced by the embedding service,
`None` when that service failed) drives the vector step; `rows` is the
relational store response to the scalar WHERE clause; then the Python-side
array filters, the composite-key stable sort, the limit cut and the result
construction.  A raising vector sub-query makes the whole call raise. -/
def hybrid_search (query_embedding : Option (List ℚ)) (chroma : ChromaEnv)
    (rows : List Row) (sql_filters : SqlFilters) (limit : Nat) :
    Except Unit (List RestaurantResult) :=
  match (if truthyEmb query_embedding then chromaQuery chroma else .ok []) with
  | .error e => .error e
  | .ok chroma_ranked_ids =>
    let filtered := rows.filter (rowPassesArrayFilters sql_filters)
    let sorted := List.insertionSort (rowKeyLe chroma_ranked_ids) filtered
    .ok ((sorted.take limit).map mk_restaurant_result)

/- ═══════════════ app/services/orchestrator.py ═══════════════ -/

def MAX_ITERATIONS : Nat := 5

def FALLBACK_PAYLOAD : GenerativeUIPayload :=
  { ui_type := "text"
    message := "I am having trouble right now — try rephrasing your request." }

/-- `_apply_anaphylactic_override`: union the caller's `exclude_allergens`
with every allergen the user has marked anaphylactic (`list(set(...))` is
modelled as an order-deterministic dedup; only membership is ever used). -/
def apply_anaphylactic_override (sql_filters : SqlFilters) (allergies : UserAllergies) :
    SqlFilters :=
  let anaphylactic := allergies.confirmed.filter
    (fun a => allergies.severity.lookup a = some "anaphylactic")
  { sql_filters with
      exclude_allergens := firstDedup (sql_filters.exclude_allergens ++ anaphylactic) }

/-- `_search_cache_key`: hash of the normalised filters (list values sorted)
plus the semantic query text.  The sha256 digest is modelled by the normalised
data itself (equal data, equal key). -/
structure SearchKey where
  price_tiers : List String
  cuisine_types : List String
  area : Option String
  min_rating : Option ℚ
  exclude_allergens : List String
  vector_query : String
deriving DecidableEq

def search_cache_key (sql_filters : SqlFilters) (vector_query : String) : SearchKey :=
  { price_tiers := sortedStrings sql_filters.price_tiers
    cuisine_types := sortedStrings sql_filters.cuisine_types
    area := sql_filters.area
    min_rating := sql_filters.min_rating
    exclude_allergens := sortedStrings sql_filters.exclude_allergens
    vector_query := vector_query }

/-- `_cache_search`, an association list (most recent insert first).  The TTL
and LRU eviction are time/volume effects with no bearing on the two
back-to-back calls the cache claims are about. -/
abbrev SearchCache := List (SearchKey × List RestaurantResult)

def cacheGet (cache : SearchCache) (key : SearchKey) : Option (List RestaurantResult) :=
  match cache with
  | [] => none
  | (k, v) :: rest => if k = key then some v else cacheGet rest key

/-- `_tool_search_restaurants`: check the search cache; on a miss run the
ranker (the `hybrid_search`+DB collaborator, abstracted as `ranker`) and cache
the serialized results only when non-empty.  The JSON round-trip of cached
results is modelled as the identity. -/
def tool_search_restaurants (ranker : SqlFilters → String → List RestaurantResult)
    (cache : SearchCache) (sql_filters : SqlFilters) (vector_query : String) :
    (List RestaurantResult × Bool) × SearchCache :=
  let key := search_cache_key sql_filters vector_query
  match cacheGet cache key with
  | some cached => ((cached, true), cache)
  | none =>
    let results := ranker sql_filters vector_query
    let cacheNew := if !results.isEmpty then (key, results) :: cache else cache
    ((results, false), cacheNew)

/-- `_build_response_message` (apostrophes of the source texts written out as
"could not" / "I have"). -/
def build_response_message (result : AllergyCheckResult) : String :=
  let total := result.safe_restaurants.length + result.flagged_restaurants.length
  if total = 0 then
    "I could not find any restaurants that match your request. Try a different area, cuisine, or price range?"
  else
    let base := "I found " ++ toString total ++ " restaurant" ++
      (if total ≠ 1 then "s" else "") ++ " for you!"
    if !result.flagged_restaurants.isEmpty then
      let flagged_count := result.flagged_restaurants.length
      base ++ " " ++ toString flagged_count ++ " ha" ++
        (if flagged_count = 1 then "s" else "ve") ++
        " a high-risk allergy note — I have flagged it clearly at the bottom so you can decide."
    else if result.has_any_warnings then
      base ++ " I have noted allergy information for some options — check the warnings before visiting."
    else base

def VALID_UI_TYPES : List String := ["restaurant_list", "radar_comparison", "map_view", "text"]

/-- `_run_allergy_guard_and_build_payload`: AllergyGuard on the top five
candidates, then the payload (the internal-fault fallback branch is the
Python `except` around a call that cannot fail in this embedding). -/
def run_allergy_guard_and_build_payload (candidates : List RestaurantResult)
    (allergies : UserAllergies) (ui_type : String) : GenerativeUIPayload :=
  let allergy_result := check (candidates.take 5) allergies
  let safe_ui_type := if VALID_UI_TYPES.contains ui_type then ui_type else "restaurant_list"
  { ui_type := safe_ui_type
    message := build_response_message allergy_result
    restaurants := allergy_result.safe_restaurants
    flagged_restaurants := allergy_result.flagged_restaurants
    has_allergy_warnings := allergy_result.has_any_warnings }

def NO_RESULTS_PAYLOAD : GenerativeUIPayload :=
  { ui_type := "text"
    message := "I could not find any restaurants matching your request. Try broadening your search — different area, cuisine, or price range?" }

/-- One structured plan `{thought, tool, tool_input}` as the dispatch reads
it (`tool_input.get(...) or default` keeps empty strings falsy). -/
structure Plan where
  thought : String := ""
  tool : String := ""
  sql_filters : SqlFilters := {}
  vector_query : Option String := none
  question : Option String := none
  ui_type : Option String := none

/-- `x or default` for optional strings (empty string is falsy). -/
def pyOr (x : Option String) (dflt : String) : String :=
  match x with
  | some s => if s = "" then dflt else s
  | none => dflt

/-- The per-turn collaborators of the ReAct loop, abstracted as the sequences
of values they would return: the planner output per iteration (`none` models
a GemmaError or a non-dict plan, both of which short-circuit to the
fallback), the search tool (cache + hybrid ranker), and the LLM re-scoring
step.  Observations only feed the planner prompt, which is inside `planner`. -/
structure LoopEnv where
  planner : Nat → Option Plan
  search : SqlFilters → String → List RestaurantResult
  evaluate : List RestaurantResult → List RestaurantResult

structure LoopState where
  current_candidates : List RestaurantResult := []
  iteration : Nat := 0

inductive StepOut where
  | next (st : LoopState)
  | done (p : GenerativeUIPayload)

/-- One pass through the `while True:` body of `orchestrate`: the hard cap
check, the planner call, and the tool dispatch.  Branches that `break` or
`return` are `done`; branches that fall through to `iteration += 1` are
`next`. -/
def loop_body (env : LoopEnv) (allergies : UserAllergies) (message : String)
    (st : LoopState) : StepOut :=
  if st.iteration ≥ MAX_ITERATIONS then
    .done (if st.current_candidates.isEmpty then NO_RESULTS_PAYLOAD
      else run_allergy_guard_and_build_payload st.current_candidates allergies "restaurant_list")
  else
    match env.planner st.iteration with
    | none => .done FALLBACK_PAYLOAD
    | some plan =>
      if plan.tool = "search_restaurants" then
        let sql_filters := apply_anaphylactic_override plan.sql_filters allergies
        let vector_query := pyOr plan.vector_query message
        let results := env.search sql_filters vector_query
        if !results.isEmpty then
          .done (run_allergy_guard_and_build_payload (env.evaluate results) allergies
            "restaurant_list")
        else
          .next { st with current_candidates := results, iteration := st.iteration + 1 }
      else if plan.tool = "evaluate_candidates" then
        if st.current_candidates.isEmpty then
          .next { st with iteration := st.iteration + 1 }
        else
          .next { st with current_candidates := env.evaluate st.current_candidates
                          iteration := st.iteration + 1 }
      else if plan.tool = "ask_clarification" then
        .done { ui_type := "text"
                message := pyOr plan.question "Could you please clarify your request?" }
      else if plan.tool = "final_response" then
        if st.current_candidates.isEmpty then .done NO_RESULTS_PAYLOAD
        else .done (run_allergy_guard_and_build_payload st.current_candidates allergies
          (pyOr plan.ui_type "restaurant_list"))
      else
        -- unknown tool — force final_response behaviour
        if st.current_candidates.isEmpty then .done FALLBACK_PAYLOAD
        else .done (run_allergy_guard_and_build_payload st.current_candidates allergies
          "restaurant_list")

/-- The `while True:` loop, run with explicit fuel (number of loop entries);
`none` means the fuel ran out before a terminal event was emitted. -/
def run_loop (env : LoopEnv) (allergies : UserAllergies) (message : String) :
    Nat → LoopState → Option GenerativeUIPayload
  | 0, _ => none
  | fuel + 1, st =>
    match loop_body env allergies message st with
    | .done p => some p
    | .next stNew => run_loop env allergies message fuel stNew

/- ═══════════════ the chat search turn end to end (search_restaurants
   branch: override → hybrid search → LLM re-scoring → AllergyGuard) ═══════ -/

/-- The orchestrate path the C1 scenario describes: the anaphylactic override,
the hybrid search, the LLM re-scoring (`ev`, an external collaborator that
returns re-scored copies of its input candidates) and AllergyGuard on the top
candidates. -/
def chat_search_pipeline (ev : List RestaurantResult → List RestaurantResult)
    (query_embedding : Option (List ℚ)) (chroma : ChromaEnv) (rows : List Row)
    (sql_filters : SqlFilters) (allergies : UserAllergies) :
    Except Unit AllergyCheckResult :=
  let sql_filters := apply_anaphylactic_override sql_filters allergies
  match hybrid_search query_embedding chroma rows sql_filters 15 with
  | .error e => .error e
  | .ok results => .ok (check ((ev results).take 5) allergies)

/- ═══════════════ app/services/recommendation_service.py ═══════════════ -/

/-- The `RestaurantResult(...)` constructor of `_fetch_candidates` — the
feed candidates as they exist when `FitScorer.score` runs on them in step 3,
before AllergyGuard (step 5): the allergy fields keep their schema defaults.
(Here `rating` uses `is not None`, not truthiness.) -/
def fetch_candidate_row (row : Row) : RestaurantResult :=
  { id := row.id
    name := row.name
    url := row.url
    address := row.address
    area := row.area
    price_tier := row.price_tier
    rating := row.rating
    votes := row.votes.getD 0
    cuisine_types := row.cuisine_types
    lat := row.lat
    lng := row.lng
    known_allergens := row.known_allergens
    allergen_confidence := match row.allergen_confidence with
      | some c => if c = "" then "low" else c
      | none => "low"
    meta := row.meta }

/- ═══════════════ spec-side vocabulary ═══════════════ -/

/-- The severity order as §3 of the spec words it — "ascending danger:
`intolerance < moderate < severe < anaphylactic`" — used to *state* the
ordering claims; the code's own table is `SEVERITY_LEVELS` above, which lists
the levels in the opposite direction. -/
def SPEC_SEVERITY_ORDER : List String := ["intolerance", "moderate", "severe", "anaphylactic"]

/-- Danger rank of a severity per the spec order (higher = more dangerous). -/
def specSeverityRank (s : String) : Nat := (SPEC_SEVERITY_ORDER.indexOf? s).getD 0

/-- The danger rank of an entry's most dangerous warning, per the spec order. -/
def specWorstRank (r : RestaurantResult) : Nat :=
  (r.allergy_warnings.map (fun w => specSeverityRank w.severity)).foldl max 0

/- ═══════════════ order-theoretic facts about the sort keys ═══════════════ -/

lemma natRatLe_total (p q : Nat × ℚ) : natRatLe p q ∨ natRatLe q p := by
  unfold natRatLe
  rcases lt_trichotomy p.1 q.1 with h | h | h
  · exact Or.inl (Or.inl h)
  · rcases le_total p.2 q.2 with h2 | h2
    · exact Or.inl (Or.inr ⟨h, h2⟩)
    · exact Or.inr (Or.inr ⟨h.symm, h2⟩)
  · exact Or.inr (Or.inl h)

lemma natRatLe_trans {p q r : Nat × ℚ} (h1 : natRatLe p q) (h2 : natRatLe q r) :
    natRatLe p r := by
  unfold natRatLe at *
  rcases h1 with h1 | ⟨e1, l1⟩ <;> rcases h2 with h2 | ⟨e2, l2⟩
  · exact Or.inl (h1.trans h2)
  · exact Or.inl (e2 ▸ h1)
  · exact Or.inl (e1 ▸ h2)
  · exact Or.inr ⟨e1.trans e2, l1.trans l2⟩

instance (ids : List Int) : IsTotal Row (rowKeyLe ids) :=
  ⟨fun _ _ => natRatLe_total _ _⟩

instance (ids : List Int) : IsTrans Row (rowKeyLe ids) :=
  ⟨fun _ _ _ => natRatLe_trans⟩

instance : IsTotal RestaurantResult sortKeyLe :=
  ⟨fun a b => by unfold sortKeyLe; omega⟩

instance : IsTrans RestaurantResult sortKeyLe :=
  ⟨fun a b c => by unfold sortKeyLe; omega⟩

/- ═══════════════ characterization of AllergyGuard.check ═══════════════ -/

lemma foldl_checkStep (m : List (String × String)) :
    ∀ (rs : List RestaurantResult)
      (acc : List RestaurantResult × List RestaurantResult × Bool),
      rs.foldl (checkStep m) acc =
        (acc.1 ++ (rs.map (annotate m)).filter (fun a => !isFlagged a),
         acc.2.1 ++ (rs.map (annotate m)).filter (fun a => isFlagged a),
         acc.2.2 || (rs.map (annotate m)).any (fun a => !a.allergy_warnings.isEmpty)) := by
  intro rs
  induction rs with
  | nil => intro acc; simp
  | cons r rest ih =>
    intro acc
    rw [List.foldl_cons]
    rw [ih]
    unfold checkStep
    by_cases hf : isFlagged (annotate m r) = true
    · simp [hf, Bool.or_assoc]
    · simp only [Bool.not_eq_true] at hf
      simp [hf, Bool.or_assoc]

lemma check_flagged (rs : List RestaurantResult) (ua : UserAllergies) :
    (check rs ua).flagged_restaurants
      = (rs.map (annotate (allUserAllergens ua))).filter (fun a => isFlagged a) := by
  unfold check
  rw [foldl_checkStep]
  simp

lemma check_safe (rs : List RestaurantResult) (ua : UserAllergies) :
    (check rs ua).safe_restaurants
      = List.insertionSort sortKeyLe
          ((rs.map (annotate (allUserAllergens ua))).filter (fun a => !isFlagged a)) := by
  unfold check
  rw [foldl_checkStep]
  simp

lemma annotate_known_allergens (m : List (String × String)) (r : RestaurantResult) :
    (annotate m r).known_allergens = r.known_allergens := rfl

lemma annotate_allergen_confidence (m : List (String × String)) (r : RestaurantResult) :
    (annotate m r).allergen_confidence = r.allergen_confidence := rfl

lemma mem_annotate_warnings_confidence {m : List (String × String)}
    {r : RestaurantResult} {w : AllergyWarning}
    (hw : w ∈ (annotate m r).allergy_warnings) :
    w.confidence = r.allergen_confidence := by
  unfold annotate at hw
  simp only at hw
  have hmem := (List.perm_insertionSort
    (fun w1 w2 : AllergyWarning =>
      severityRank w2.severity ≤ severityRank w1.severity) _).mem_iff.mp hw
  rw [List.mem_map] at hmem
  obtain ⟨p, _, rfl⟩ := hmem
  rfl

lemma isFlagged_iff {a : RestaurantResult} :
    isFlagged a = true ↔
      ∃ w ∈ a.allergy_warnings, w.severity = "anaphylactic" ∧ w.confidence = "high" := by
  unfold isFlagged
  rw [List.any_eq_true]
  constructor
  · rintro ⟨w, hw, h⟩
    refine ⟨w, hw, ?_⟩
    simpa [Bool.and_eq_true, beq_iff_eq] using h
  · rintro ⟨w, hw, h⟩
    refine ⟨w, hw, ?_⟩
    simpa [Bool.and_eq_true, beq_iff_eq] using h

/- ═══════════════ claim theorems ═══════════════ -/

/-- C2 (code bug witness): `AllergyGuard._annotate` sorts each candidate's
warning list LEAST-severe-first, not most-severe-first.  For a user with a
confirmed anaphylactic peanut allergy and a dairy intolerance, a restaurant
known for both allergens gets the warning list
`[intolerance, anaphylactic]` — the intolerance warning precedes the
anaphylactic one, so the list is not sorted most-severe-first under the
spec's danger order. -/
theorem warning_list_sorted_least_severe_first :
    ((annotate (allUserAllergens
        { confirmed := ["peanuts"], intolerances := ["dairy"]
          severity := [("peanuts", "anaphylactic")] })
        { id := 1, name := "Mixed", known_allergens := ["peanuts", "dairy"]
          allergen_confidence := "medium" }).allergy_warnings.map
            (fun w => w.severity) = ["intolerance", "anaphylactic"])
    ∧ ¬ List.Pairwise
        (fun w1 w2 => specSeverityRank w2.severity ≤ specSeverityRank w1.severity)
        (annotate (allUserAllergens
          { confirmed := ["peanuts"], intolerances := ["dairy"]
            severity := [("peanuts", "anaphylactic")] })
          { id := 1, name := "Mixed", known_allergens := ["peanuts", "dairy"]
            allergen_confidence := "medium" }).allergy_warnings := by
  constructor
  · decide
  · decide

/-- C3 (code bug witness): among unsafe entries of the `safe` list,
`AllergyGuard.check` orders MOST-dangerous first, not least-dangerous first:
with candidate B (intolerance-level dairy warning) listed before candidate A
(anaphylactic peanut warning, medium confidence, hence not flagged), the
sorted safe list is `[A, B]` — spec worst-danger ranks `[3, 0]`, a strictly
decreasing sequence. -/
theorem safe_list_orders_most_dangerous_unsafe_first :
    ((check
        [{ id := 2, name := "B", known_allergens := ["dairy"], allergen_confidence := "high" },
         { id := 1, name := "A", known_allergens := ["peanuts"], allergen_confidence := "medium" }]
        { confirmed := ["peanuts"], intolerances := ["dairy"]
          severity := [("peanuts", "anaphylactic")] }).safe_restaurants.map
            (fun r => (r.id, specWorstRank r)) = [(1, 3), (2, 0)])
    ∧ ¬ List.Pairwise (fun x y => specWorstRank x ≤ specWorstRank y)
        (check
          [{ id := 2, name := "B", known_allergens := ["dairy"], allergen_confidence := "high" },
           { id := 1, name := "A", known_allergens := ["peanuts"], allergen_confidence := "medium" }]
          { confirmed := ["peanuts"], intolerances := ["dairy"]
            severity := [("peanuts", "anaphylactic")] }).safe_restaurants := by
  constructor
  · decide
  · decide

/-- C4: a candidate lands in `flagged_restaurants` iff its annotated warning
list carries an anaphylactic-severity warning with high confidence (every
warning's confidence is the restaurant's `allergen_confidence`); and any
candidate whose `allergen_confidence` is not "high" — e.g. "medium" — goes to
the `safe` list instead. -/
theorem flagged_iff_anaphylactic_and_high_confidence :
    ∀ (restaurants : List RestaurantResult) (ua : UserAllergies) (a : RestaurantResult),
      (a ∈ (check restaurants ua).flagged_restaurants ↔
        (∃ r ∈ restaurants, annotate (allUserAllergens ua) r = a) ∧
          ∃ w ∈ a.allergy_warnings, w.severity = "anaphylactic" ∧ w.confidence = "high")
      ∧ (∀ r ∈ restaurants, r.allergen_confidence ≠ "high" →
          annotate (allUserAllergens ua) r ∈ (check restaurants ua).safe_restaurants) := by
  intro rs ua a
  constructor
  · rw [check_flagged, List.mem_filter, List.mem_map, isFlagged_iff]
  · intro r hr hconf
    rw [check_safe, (List.perm_insertionSort _ _).mem_iff, List.mem_filter]
    refine ⟨List.mem_map_of_mem _ hr, ?_⟩
    simp only [Bool.not_eq_true']
    rw [← Bool.not_eq_true]
    intro hfl
    obtain ⟨w, hw, _, hc⟩ := isFlagged_iff.mp hfl
    exact hconf (mem_annotate_warnings_confidence hw ▸ hc)

/-- Witness for C4 at a concrete input: a restaurant matching the user's
anaphylactic peanut allergy but with medium allergen confidence is routed to
the safe list. -/
theorem flagged_iff_anaphylactic_and_high_confidence_witness :
    annotate (allUserAllergens
        { confirmed := ["peanuts"], severity := [("peanuts", "anaphylactic")] })
        { id := 9, name := "M", known_allergens := ["peanuts"], allergen_confidence := "medium" }
      ∈ (check
          [{ id := 9, name := "M", known_allergens := ["peanuts"], allergen_confidence := "medium" }]
          { confirmed := ["peanuts"], severity := [("peanuts", "anaphylactic")] }).safe_restaurants :=
  (flagged_iff_anaphylactic_and_high_confidence
      [{ id := 9, name := "M", known_allergens := ["peanuts"], allergen_confidence := "medium" }]
      { confirmed := ["peanuts"], severity := [("peanuts", "anaphylactic")] }
      (annotate (allUserAllergens
        { confirmed := ["peanuts"], severity := [("peanuts", "anaphylactic")] })
        { id := 9, name := "M", known_allergens := ["peanuts"], allergen_confidence := "medium" })).2
    _ (by simp) (by decide)

/- ═══════════════ FitScorer dimension lemmas ═══════════════ -/

lemma setInter_ne_nil_right {s t : List String} (h : setInter s t ≠ []) : t ≠ [] := by
  intro ht
  subst ht
  exact h (by simp [setInter, List.contains])

lemma score_cuisine_aversion_hit (r : RestaurantResult) (p : UserProfile)
    (h : setInter (pySetLower r.cuisine_types) (pySetLower p.cuisine_aversion) ≠ []) :
    score_cuisine r p = (-10, none) := by
  unfold score_cuisine
  have hav : (pySetLower p.cuisine_aversion).isEmpty = false := by
    have hne := setInter_ne_nil_right h
    cases hE : (pySetLower p.cuisine_aversion).isEmpty
    · rfl
    · exact absurd (List.isEmpty_iff.mp hE) hne
  have hint : (setInter (pySetLower r.cuisine_types) (pySetLower p.cuisine_aversion)).isEmpty
      = false := by
    cases hE : (setInter (pySetLower r.cuisine_types) (pySetLower p.cuisine_aversion)).isEmpty
    · rfl
    · exact absurd (List.isEmpty_iff.mp hE) h
  simp [hav, hint]

lemma score_vibe_no_user_vibes (r : RestaurantResult) (p : UserProfile)
    (h : p.vibe_tags = []) : score_vibe r p = (0, none) := by
  unfold score_vibe
  rw [h]
  rfl

lemma score_dietary_no_user_flags (r : RestaurantResult) (p : UserProfile)
    (h : p.dietary_flags = []) : score_dietary r p = (0, none) := by
  unfold score_dietary
  rw [h]
  rfl

lemma score_price_no_preference (r : RestaurantResult) (p : UserProfile)
    (h1 : p.preferred_price_tiers = []) (h2 : p.preferences_price_comfort = []) :
    score_price r p = (0, none) := by
  unfold score_price
  rw [h1, h2]
  cases htier : r.price_tier with
  | none => rfl
  | some t =>
    by_cases ht : t = ""
    · simp [ht, pySet, firstDedup]
    · simp [ht, pySet, firstDedup]

lemma score_allergy_unsafe_no_warnings (r : RestaurantResult)
    (h1 : r.allergy_safe = false) (h2 : r.allergy_warnings = []) :
    score_allergy r = (0, none) := by
  unfold score_allergy
  rw [h1, h2]
  rfl

/-- C6: `FitScorer.score` always returns a total clamped to [0, 100]; and
when an aversion-cuisine match fires while no other dimension can contribute
(no vibe tags, no dietary flags, no price preference, allergy dimension at 0),
the raw sum is −10 and the returned score is exactly 0, never negative. -/
theorem fit_score_clamped_and_aversion_floor :
    ∀ (r : RestaurantResult) (p : UserProfile),
      (0 ≤ (score r p).score ∧ (score r p).score ≤ 100)
      ∧ (setInter (pySetLower r.cuisine_types) (pySetLower p.cuisine_aversion) ≠ [] →
          p.vibe_tags = [] → p.dietary_flags = [] →
          p.preferred_price_tiers = [] → p.preferences_price_comfort = [] →
          r.allergy_safe = false → r.allergy_warnings = [] →
          (score r p).score = 0) := by
  intro r p
  constructor
  · constructor
    · show (0 : Int) ≤ max 0 (min 100 _)
      exact le_max_left _ _
    · show max 0 (min 100 _) ≤ (100 : Int)
      exact max_le (by norm_num) (min_le_left _ _)
  · intro hav hvibe hdiet hpt hpc hsafe hwarn
    have hc := score_cuisine_aversion_hit r p hav
    have hv := score_vibe_no_user_vibes r p hvibe
    have hd := score_dietary_no_user_flags r p hdiet
    have hp := score_price_no_preference r p hpt hpc
    have ha := score_allergy_unsafe_no_warnings r hsafe hwarn
    simp [score, hc, hv, hd, hp, ha]

/-- Witness for C6 at a concrete input: a Thai-averse user and a Thai
restaurant with no other matching dimension score exactly 0. -/
theorem fit_score_aversion_floor_witness :
    (setInter
        (pySetLower
          (RestaurantResult.cuisine_types
            { id := 1, name := "T", cuisine_types := ["Thai"], allergy_safe := false }))
        (pySetLower (UserProfile.cuisine_aversion { cuisine_aversion := ["thai"] })) ≠ [])
    ∧ (score { id := 1, name := "T", cuisine_types := ["Thai"], allergy_safe := false }
        { cuisine_aversion := ["thai"] }).score = 0 :=
  ⟨by decide,
   (fit_score_clamped_and_aversion_floor
      { id := 1, name := "T", cuisine_types := ["Thai"], allergy_safe := false }
      { cuisine_aversion := ["thai"] }).2 (by decide) rfl rfl rfl rfl rfl rfl⟩

/- ═══════════════ hybrid search lemmas ═══════════════ -/

/-- The composite key as read off a returned `RestaurantResult`. -/
def resultKey (ids : List Int) (res : RestaurantResult) : Nat × ℚ :=
  (chromaIdx ids res.id, -(res.rating.getD 0))

lemma resultKey_mk (ids : List Int) (row : Row) :
    resultKey ids (mk_restaurant_result row) = rowKey ids row := by
  unfold resultKey rowKey mk_restaurant_result negRating
  cases hr : row.rating with
  | none => simp
  | some r =>
    by_cases h0 : r = 0
    · simp [h0]
    · simp [h0]

lemma chromaIdx_lt_of_mem {ids : List Int} {x : Int} (h : x ∈ ids) :
    chromaIdx ids x < ids.length := by
  unfold chromaIdx
  have hsome : (ids.indexOf? x).isSome = true := by
    show (List.findIdx? (fun y => y == x) ids).isSome = true
    rw [List.findIdx?_isSome, List.any_eq_true]
    exact ⟨x, h, beq_self_eq_true x⟩
  obtain ⟨i, hi⟩ := Option.isSome_iff_exists.mp hsome
  have := List.findIdx?_eq_some_iff_findIdx_eq.mp hi
  rw [hi]
  exact this.1

lemma chromaIdx_of_not_mem {ids : List Int} {x : Int} (h : x ∉ ids) :
    chromaIdx ids x = ids.length := by
  unfold chromaIdx
  rw [List.indexOf?_eq_none_iff.mpr]
  · rfl
  · intro y hy hbeq
    exact h (beq_iff_eq.mp hbeq ▸ hy)

/-- Shared shape of a successful `hybrid_search`: once the vector step
produced the ranked id list `ids`, the call returns exactly the first
`limit` elements of a composite-key-sorted permutation of the scalar-filter
survivors, mapped through the result constructor. -/
lemma hybrid_search_ok_sorted (ids : List Int) (rows : List Row) (f : SqlFilters)
    (limit : Nat) (emb : Option (List ℚ)) (chroma : ChromaEnv)
    (hch : (if truthyEmb emb then chromaQuery chroma else Except.ok []) = Except.ok ids) :
    ∃ sorted l,
      sorted.Perm (rows.filter (rowPassesArrayFilters f)) ∧
      List.Pairwise (rowKeyLe ids) sorted ∧
      hybrid_search emb chroma rows f limit = .ok l ∧
      l = (sorted.take limit).map mk_restaurant_result ∧
      l.length = min limit (rows.filter (rowPassesArrayFilters f)).length ∧
      (∀ res ∈ l, ∃ row ∈ rows,
        rowPassesArrayFilters f row = true ∧ mk_restaurant_result row = res) ∧
      l.Pairwise (fun a b => natRatLe (resultKey ids a) (resultKey ids b)) := by
  unfold hybrid_search
  rw [hch]
  refine ⟨List.insertionSort (rowKeyLe ids) (rows.filter (rowPassesArrayFilters f)), _,
    List.perm_insertionSort _ _, List.sorted_insertionSort _ _, rfl, rfl, ?_, ?_, ?_⟩
  · rw [List.length_map, List.length_take,
      (List.perm_insertionSort (rowKeyLe ids) (rows.filter (rowPassesArrayFilters f))).length_eq]
  · intro res hres
    rw [List.mem_map] at hres
    obtain ⟨row, hrow, hmk⟩ := hres
    have hrow2 : row ∈ List.insertionSort (rowKeyLe ids)
        (rows.filter (rowPassesArrayFilters f)) :=
      List.take_subset _ _ hrow
    rw [(List.perm_insertionSort _ _).mem_iff, List.mem_filter] at hrow2
    exact ⟨row, hrow2.1, hrow2.2, hmk⟩
  · have hs : List.Pairwise (rowKeyLe ids)
        (List.insertionSort (rowKeyLe ids) (rows.filter (rowPassesArrayFilters f))) :=
      List.sorted_insertionSort _ _
    have ht := List.Pairwise.sublist (List.take_sublist limit _) hs
    rw [List.pairwise_map]
    refine ht.imp ?_
    intro a b hab
    rw [resultKey_mk, resultKey_mk]
    exact hab

lemma rowKeyLe_nil_rating {r1 r2 : Row} (h : rowKeyLe [] r1 r2) :
    r2.rating.getD 0 ≤ r1.rating.getD 0 := by
  unfold rowKeyLe rowKey natRatLe negRating at h
  rcases h with h1 | ⟨_, h2⟩
  · exact absurd h1 (by simp [chromaIdx])
  · exact neg_le_neg_iff.mp h2

/-- A search with no usable embedding returns normally: exactly the first
`limit` elements of a rating-descending (nulls as zero) permutation of the
survivors. -/
lemma hybrid_search_no_emb (emb : Option (List ℚ)) (chroma : ChromaEnv)
    (rows : List Row) (f : SqlFilters) (limit : Nat)
    (h : truthyEmb emb = false) :
    ∃ sorted l,
      sorted.Perm (rows.filter (rowPassesArrayFilters f)) ∧
      List.Pairwise (fun r1 r2 : Row => r2.rating.getD 0 ≤ r1.rating.getD 0) sorted ∧
      hybrid_search emb chroma rows f limit = .ok l ∧
      l = (sorted.take limit).map mk_restaurant_result ∧
      l.length = min limit (rows.filter (rowPassesArrayFilters f)).length ∧
      (∀ res ∈ l, ∃ row ∈ rows,
        rowPassesArrayFilters f row = true ∧ mk_restaurant_result row = res) ∧
      l.Pairwise (fun a b => b.rating.getD 0 ≤ a.rating.getD 0) := by
  have hch : (if truthyEmb emb then chromaQuery chroma else Except.ok []) =
      Except.ok ([] : List Int) := by rw [h]; rfl
  obtain ⟨sorted, l, hperm, hsort, hl, hslice, hlen, hmem, hpw⟩ :=
    hybrid_search_ok_sorted [] rows f limit emb chroma hch
  refine ⟨sorted, l, hperm, hsort.imp rowKeyLe_nil_rating, hl, hslice, hlen, hmem, ?_⟩
  refine hpw.imp ?_
  intro a b hab
  unfold natRatLe resultKey at hab
  rcases hab with h1 | ⟨_, h2⟩
  · exact absurd h1 (by simp [chromaIdx])
  · exact neg_le_neg_iff.mp h2

/-- C7: with a usable embedding, hybrid search returns exactly the first
`limit` candidates of a composite-key-sorted permutation of the
scalar-filter survivors — the key being `(semanticRank, −rating)`, where
present ids rank strictly below the sentinel `ids.length` assigned to absent
ones and null ratings count as zero — so the output has length
`min limit survivors`, comes from the survivors, and is itself sorted by that
key; with no usable embedding it is exactly the first `limit` elements of a
rating-descending permutation of the survivors. -/
theorem hybrid_ranking_by_semantic_rank_then_rating :
    (∀ (emb : Option (List ℚ)) (count : Nat) (metas : List (Option Int))
        (rows : List Row) (f : SqlFilters) (limit : Nat),
        truthyEmb emb = true →
        ∃ ids sorted l,
          chromaQuery (ChromaEnv.ok count metas) = .ok ids ∧
          sorted.Perm (rows.filter (rowPassesArrayFilters f)) ∧
          List.Pairwise (rowKeyLe ids) sorted ∧
          hybrid_search emb (ChromaEnv.ok count metas) rows f limit = .ok l ∧
          l = (sorted.take limit).map mk_restaurant_result ∧
          l.length = min limit (rows.filter (rowPassesArrayFilters f)).length ∧
          (∀ res ∈ l, ∃ row ∈ rows,
            rowPassesArrayFilters f row = true ∧ mk_restaurant_result row = res) ∧
          (∀ x ∈ ids, chromaIdx ids x < ids.length) ∧
          (∀ x : Int, x ∉ ids → chromaIdx ids x = ids.length) ∧
          l.Pairwise (fun a b => natRatLe (resultKey ids a) (resultKey ids b)))
    ∧ (∀ (emb : Option (List ℚ)) (chroma : ChromaEnv) (rows : List Row)
        (f : SqlFilters) (limit : Nat),
        truthyEmb emb = false →
        ∃ sorted l,
          sorted.Perm (rows.filter (rowPassesArrayFilters f)) ∧
          List.Pairwise (fun r1 r2 : Row => r2.rating.getD 0 ≤ r1.rating.getD 0) sorted ∧
          hybrid_search emb chroma rows f limit = .ok l ∧
          l = (sorted.take limit).map mk_restaurant_result ∧
          l.length = min limit (rows.filter (rowPassesArrayFilters f)).length ∧
          (∀ res ∈ l, ∃ row ∈ rows,
            rowPassesArrayFilters f row = true ∧ mk_restaurant_result row = res) ∧
          l.Pairwise (fun a b => b.rating.getD 0 ≤ a.rating.getD 0)) := by
  constructor
  · intro emb count metas rows f limit htr
    refine ⟨if count = 0 then [] else dedupIds metas, ?_⟩
    have hq : chromaQuery (ChromaEnv.ok count metas) =
        .ok (if count = 0 then [] else dedupIds metas) := by
      unfold chromaQuery
      by_cases hc : count = 0
      · simp [hc]
      · simp [hc]
    have hch : (if truthyEmb emb then chromaQuery (ChromaEnv.ok count metas)
        else Except.ok []) = Except.ok (if count = 0 then [] else dedupIds metas) := by
      rw [htr, if_pos rfl, hq]
    obtain ⟨sorted, l, hperm, hsort, hl, hslice, hlen, hmem, hpw⟩ :=
      hybrid_search_ok_sorted (if count = 0 then [] else dedupIds metas) rows f limit emb
        (ChromaEnv.ok count metas) hch
    exact ⟨sorted, l, hq, hperm, hsort, hl, hslice, hlen, hmem,
      fun x hx => chromaIdx_lt_of_mem hx, fun x hx => chromaIdx_of_not_mem hx, hpw⟩
  · intro emb chroma rows f limit htr
    exact hybrid_search_no_emb emb chroma rows f limit htr

/-- Witness for C7 at a concrete input: a non-empty embedding makes the call
succeed on a concrete row set. -/
theorem hybrid_ranking_witness :
    truthyEmb (some [1]) = true ∧
    (hybrid_search (some [1]) (ChromaEnv.ok 10 [some 2, some 1, some 2])
        [{ id := 1, rating := some 5 }, { id := 2, rating := some 4 }]
        {} 15).toOption.isSome = true := by
  refine ⟨by decide, ?_⟩
  obtain ⟨ids, sorted, l, _, _, _, hs, _⟩ :=
    hybrid_ranking_by_semantic_rank_then_rating.1 (some [1]) 10 [some 2, some 1, some 2]
      [{ id := 1, rating := some 5 }, { id := 2, rating := some 4 }] {} 15 (by decide)
  rw [hs]
  rfl

/-- C8 counterexample: a raising vector-index sub-query makes the whole
hybrid search call fail — the error is not caught and no rating-only
degradation happens (contrast: a failed *embedding* comes back as `none` and
does degrade, which is the second conjunct of the amended theorem below). -/
theorem vector_index_error_escapes_hybrid_search :
    hybrid_search (some [1]) ChromaEnv.err [{ id := 7, rating := some 4 }] {} 15
      = Except.error () := by decide

/-- C8 amended: a *missing embedding* (the embedding service failed and
returned `None`) degrades to a normal, rating-descending result; but an error
raised by the vector-index query itself propagates out of `hybrid_search`
whenever a usable embedding is present. -/
theorem hybrid_search_degrades_only_for_embedding_failure :
    (∀ (chroma : ChromaEnv) (rows : List Row) (f : SqlFilters) (limit : Nat),
        ∃ l, hybrid_search none chroma rows f limit = .ok l ∧
          l.Pairwise (fun a b => b.rating.getD 0 ≤ a.rating.getD 0))
    ∧ (∀ (emb : Option (List ℚ)) (rows : List Row) (f : SqlFilters) (limit : Nat),
        truthyEmb emb = true →
        hybrid_search emb ChromaEnv.err rows f limit = Except.error ()) := by
  constructor
  · intro chroma rows f limit
    obtain ⟨sorted, l, _, _, hl, _, _, _, hpw⟩ :=
      hybrid_search_no_emb none chroma rows f limit rfl
    exact ⟨l, hl, hpw⟩
  · intro emb rows f limit htr
    unfold hybrid_search
    rw [htr, if_pos rfl]
    rfl

/-- Witness for C8 amended at a concrete input. -/
theorem hybrid_search_degrades_witness :
    truthyEmb (some [1]) = true ∧
    hybrid_search (some [1]) ChromaEnv.err [] {} 15 = Except.error () :=
  ⟨by decide,
   hybrid_search_degrades_only_for_embedding_failure.2 (some [1]) [] {} 15 (by decide)⟩

/- ═══════════════ anaphylactic override lemmas (C1) ═══════════════ -/

lemma mem_firstDedup {x : String} : ∀ {l : List String}, x ∈ firstDedup l ↔ x ∈ l := by
  intro l
  induction l with
  | nil => rfl
  | cons b bs ih =>
    unfold firstDedup
    rw [List.mem_cons, List.mem_cons, List.mem_filter]
    constructor
    · rintro (h | ⟨h, _⟩)
      · exact Or.inl h
      · exact Or.inr (ih.mp h)
    · rintro (h | h)
      · exact Or.inl h
      · by_cases hxb : x = b
        · exact Or.inl hxb
        · exact Or.inr ⟨ih.mpr h, by simp [hxb]⟩

lemma override_mem {f : SqlFilters} {ua : UserAllergies} {a : String}
    (h1 : a ∈ ua.confirmed) (h2 : ua.severity.lookup a = some "anaphylactic") :
    a ∈ (apply_anaphylactic_override f ua).exclude_allergens := by
  unfold apply_anaphylactic_override
  rw [mem_firstDedup, List.mem_append]
  refine Or.inr ?_
  rw [List.mem_filter]
  exact ⟨h1, by simp [h2]⟩

lemma hybrid_search_ok_excludes {emb : Option (List ℚ)} {chroma : ChromaEnv}
    {rows : List Row} {f : SqlFilters} {limit : Nat} {l : List RestaurantResult}
    {a : String} (ha : a ∈ f.exclude_allergens)
    (h : hybrid_search emb chroma rows f limit = .ok l) :
    ∀ x ∈ l, x.known_allergens.contains a = false := by
  unfold hybrid_search at h
  cases hch : (if truthyEmb emb then chromaQuery chroma else Except.ok []) with
  | error e => rw [hch] at h; exact absurd h (by simp)
  | ok ids =>
    rw [hch] at h
    simp only [Except.ok.injEq] at h
    subst h
    intro x hx
    rw [List.mem_map] at hx
    obtain ⟨row, hrow, rfl⟩ := hx
    have hmemf : row ∈ rows.filter (rowPassesArrayFilters f) := by
      have h1 := List.take_subset _ _ hrow
      rwa [(List.perm_insertionSort _ _).mem_iff] at h1
    rw [List.mem_filter] at hmemf
    have hpass := hmemf.2
    unfold rowPassesArrayFilters at hpass
    rw [Bool.and_eq_true] at hpass
    have hne : f.exclude_allergens.isEmpty = false := by
      cases hE : f.exclude_allergens.isEmpty
      · rfl
      · rw [List.isEmpty_iff] at hE
        rw [hE] at ha
        exact absurd ha (by simp)
    have h2 := hpass.2
    rw [hne, Bool.false_or, Bool.not_eq_true'] at h2
    have h3 := List.any_eq_false.mp h2 a ha
    show row.known_allergens.contains a = false
    cases hc : row.known_allergens.contains a
    · rfl
    · exact absurd hc h3

lemma check_member_known_allergens {cands : List RestaurantResult} {ua : UserAllergies}
    {x : RestaurantResult}
    (hx : x ∈ (check cands ua).safe_restaurants ∨ x ∈ (check cands ua).flagged_restaurants) :
    ∃ y ∈ cands, y.known_allergens = x.known_allergens := by
  rcases hx with hx | hx
  · rw [check_safe, (List.perm_insertionSort _ _).mem_iff, List.mem_filter] at hx
    obtain ⟨hx1, _⟩ := hx
    rw [List.mem_map] at hx1
    obtain ⟨y, hy, rfl⟩ := hx1
    exact ⟨y, hy, (annotate_known_allergens _ _).symm⟩
  · rw [check_flagged, List.mem_filter] at hx
    obtain ⟨hx1, _⟩ := hx
    rw [List.mem_map] at hx1
    obtain ⟨y, hy, rfl⟩ := hx1
    exact ⟨y, hy, (annotate_known_allergens _ _).symm⟩

/-- C1 counterexample: a user with a confirmed anaphylactic peanut allergy
searches with no explicit allergen filter over three restaurants — peanuts
with high confidence (id 1), peanuts with medium confidence (id 2), clean
(id 3).  The override excludes *both* peanut restaurants at the data layer,
so the safe list is just `[3]`, there is no anaphylactic warning anywhere,
and the medium-confidence peanut restaurant does not appear in `safe` as the
claim says it should. -/
theorem peanut_restaurants_all_excluded_not_warned :
    (chat_search_pipeline (fun l => l) none (ChromaEnv.ok 0 [])
        [{ id := 1, rating := some 5, known_allergens := ["peanuts"],
           allergen_confidence := some "high" },
         { id := 2, rating := some 4, known_allergens := ["peanuts"],
           allergen_confidence := some "medium" },
         { id := 3, rating := some 3, known_allergens := ["gluten"],
           allergen_confidence := some "high" }]
        {} { confirmed := ["peanuts"], severity := [("peanuts", "anaphylactic")] }).map
      (fun res => (res.safe_restaurants.map (fun r => r.id),
        res.flagged_restaurants.map (fun r => r.id), res.has_any_warnings))
      = Except.ok ([3], [], false) := by decide

/-- C1 amended: for a confirmed anaphylactic allergen the override excludes
every restaurant carrying it — regardless of `allergen_confidence` — at the
data layer, so no restaurant containing that allergen appears in either the
safe or the flagged list of the search turn (and none is flagged, because
none survives to be checked).  `ev` is the LLM re-scoring collaborator, which
returns re-scored copies of its input candidates. -/
theorem anaphylactic_override_is_confidence_blind :
    ∀ (ev : List RestaurantResult → List RestaurantResult) (emb : Option (List ℚ))
      (chroma : ChromaEnv) (rows : List Row) (f : SqlFilters) (ua : UserAllergies)
      (a : String) (res : AllergyCheckResult),
      a ∈ ua.confirmed →
      ua.severity.lookup a = some "anaphylactic" →
      (∀ (l : List RestaurantResult) (x : RestaurantResult), x ∈ ev l →
        ∃ y ∈ l, y.known_allergens = x.known_allergens) →
      chat_search_pipeline ev emb chroma rows f ua = .ok res →
      res.safe_restaurants.all (fun x => !(x.known_allergens.contains a)) = true ∧
        res.flagged_restaurants.all (fun x => !(x.known_allergens.contains a)) = true := by
  intro ev emb chroma rows f ua a res hconf hsev hev hpipe
  unfold chat_search_pipeline at hpipe
  cases hh : hybrid_search emb chroma rows (apply_anaphylactic_override f ua) 15 with
  | error e =>
    simp only [hh] at hpipe
    exact absurd hpipe (by simp)
  | ok results =>
    simp only [hh, Except.ok.injEq] at hpipe
    subst hpipe
    have hres : ∀ x ∈ results, x.known_allergens.contains a = false :=
      hybrid_search_ok_excludes (override_mem hconf hsev) hh
    have hcand : ∀ x ∈ (ev results).take 5, x.known_allergens.contains a = false := by
      intro x hx
      obtain ⟨y, hy, hk⟩ := hev results x (List.take_subset _ _ hx)
      rw [← hk]
      exact hres y hy
    constructor
    · rw [List.all_eq_true]
      intro x hx
      obtain ⟨y, hy, hk⟩ := check_member_known_allergens (Or.inl hx)
      rw [Bool.not_eq_true', ← hk]
      exact hcand y hy
    · rw [List.all_eq_true]
      intro x hx
      obtain ⟨y, hy, hk⟩ := check_member_known_allergens (Or.inr hx)
      rw [Bool.not_eq_true', ← hk]
      exact hcand y hy

/-- Witness for C1 amended at the concrete counterexample input. -/
theorem anaphylactic_override_confidence_blind_witness :
    (chat_search_pipeline (fun l => l) none (ChromaEnv.ok 0 [])
        [{ id := 1, rating := some 5, known_allergens := ["peanuts"],
           allergen_confidence := some "high" },
         { id := 2, rating := some 4, known_allergens := ["peanuts"],
           allergen_confidence := some "medium" }]
        {} { confirmed := ["peanuts"], severity := [("peanuts", "anaphylactic")] }).map
      (fun res => res.safe_restaurants.all (fun x => !(x.known_allergens.contains "peanuts")) &&
        res.flagged_restaurants.all (fun x => !(x.known_allergens.contains "peanuts")))
      = Except.ok true := by
  cases hp : chat_search_pipeline (fun l => l) none (ChromaEnv.ok 0 [])
      [{ id := 1, rating := some 5, known_allergens := ["peanuts"],
         allergen_confidence := some "high" },
       { id := 2, rating := some 4, known_allergens := ["peanuts"],
         allergen_confidence := some "medium" }]
      {} { confirmed := ["peanuts"], severity := [("peanuts", "anaphylactic")] } with
  | error e => exact absurd hp (by cases e; decide)
  | ok res =>
    obtain ⟨h1, h2⟩ := anaphylactic_override_is_confidence_blind (fun l => l) none
      (ChromaEnv.ok 0 [])
      [{ id := 1, rating := some 5, known_allergens := ["peanuts"],
         allergen_confidence := some "high" },
       { id := 2, rating := some 4, known_allergens := ["peanuts"],
         allergen_confidence := some "medium" }]
      {} { confirmed := ["peanuts"], severity := [("peanuts", "anaphylactic")] } "peanuts" res
      (by decide) (by decide) (fun l x hx => ⟨x, hx, rfl⟩) hp
    simp only [Except.map]
    rw [h1, h2]
    rfl

/- ═══════════════ ReAct loop lemmas (C5) ═══════════════ -/

lemma loop_body_next {env : LoopEnv} {allergies : UserAllergies} {message : String}
    {st st' : LoopState} (h : loop_body env allergies message st = .next st') :
    st.iteration < MAX_ITERATIONS ∧ st'.iteration = st.iteration + 1 := by
  unfold loop_body at h
  by_cases hcap : st.iteration ≥ MAX_ITERATIONS
  · rw [if_pos hcap] at h
    exact absurd h (by simp)
  · rw [if_neg hcap] at h
    refine ⟨by omega, ?_⟩
    cases hpl : env.planner st.iteration with
    | none =>
      rw [hpl] at h
      exact absurd h (by simp)
    | some plan =>
      rw [hpl] at h
      simp only [] at h
      repeat' split at h
      all_goals
        first
          | (injection h with h2; subst h2; rfl)
          | injection h

lemma run_loop_isSome (env : LoopEnv) (allergies : UserAllergies) (message : String) :
    ∀ (fuel : Nat) (st : LoopState),
      MAX_ITERATIONS + 1 ≤ st.iteration + fuel → 1 ≤ fuel →
      (run_loop env allergies message fuel st).isSome = true := by
  intro fuel
  induction fuel with
  | zero => intro st h1 h2; omega
  | succ n ih =>
    intro st h1 _
    cases hb : loop_body env allergies message st with
    | done p => simp [run_loop, hb]
    | next st2 =>
      obtain ⟨hlt, hit⟩ := loop_body_next hb
      simp only [run_loop, hb]
      exact ih st2 (by omega) (by omega)

/-- C5: for every sequence of planner outputs and any behaviour of the search
and re-scoring collaborators, the control loop emits a terminal payload
within the ceiling (at most `MAX_ITERATIONS` planner iterations plus the
forced finalization entry); a planner that always returns an unrecognized
tool terminates at once with the fallback payload (no candidates yet); and a
planner that keeps choosing a non-terminal tool is forced into the
final-response behaviour when the ceiling is hit. -/
theorem react_loop_terminates_within_ceiling :
    (∀ (env : LoopEnv) (allergies : UserAllergies) (message : String),
        (run_loop env allergies message (MAX_ITERATIONS + 1) {}).isSome = true)
    ∧ (∀ (search : SqlFilters → String → List RestaurantResult)
        (ev : List RestaurantResult → List RestaurantResult)
        (allergies : UserAllergies) (message : String),
        run_loop
          { planner := fun _ => some { tool := "mystery_tool" }
            search := search, evaluate := ev }
          allergies message (MAX_ITERATIONS + 1) {} = some FALLBACK_PAYLOAD)
    ∧ (∀ (search : SqlFilters → String → List RestaurantResult)
        (ev : List RestaurantResult → List RestaurantResult)
        (allergies : UserAllergies) (message : String),
        run_loop
          { planner := fun _ => some { tool := "evaluate_candidates" }
            search := search, evaluate := ev }
          allergies message (MAX_ITERATIONS + 1) {} = some NO_RESULTS_PAYLOAD) := by
  refine ⟨?_, ?_, ?_⟩
  · intro env a m
    refine run_loop_isSome env a m (MAX_ITERATIONS + 1) {} ?_ (by omega)
    show MAX_ITERATIONS + 1 ≤ 0 + (MAX_ITERATIONS + 1)
    omega
  · intro search ev a m
    rfl
  · intro search ev a m
    rfl

/- ═══════════════ search cache lemmas (C9) ═══════════════ -/

lemma cacheGet_head (k : SearchKey) (v : List RestaurantResult) (c : SearchCache) :
    cacheGet ((k, v) :: c) k = some v := by
  unfold cacheGet
  rw [if_pos rfl]

/-- C9: two calls through `_tool_search_restaurants` with the same normalized
scalar filters and the same semantic query text: if the first call returns a
non-empty list, the second call (with *any* ranker behaviour — the ranking
collaborators are not invoked) returns exactly the same candidate list as a
cache hit and leaves the cache unchanged; and a first call that returns an
empty list does not populate the cache at all. -/
theorem search_cache_hit_returns_identical_list :
    ∀ (ranker1 ranker2 : SqlFilters → String → List RestaurantResult)
      (cache : SearchCache) (f1 f2 : SqlFilters) (vq : String),
      search_cache_key f2 vq = search_cache_key f1 vq →
      ((tool_search_restaurants ranker1 cache f1 vq).1.1 ≠ [] →
        tool_search_restaurants ranker2 (tool_search_restaurants ranker1 cache f1 vq).2 f2 vq
          = (((tool_search_restaurants ranker1 cache f1 vq).1.1, true),
             (tool_search_restaurants ranker1 cache f1 vq).2))
      ∧ ((tool_search_restaurants ranker1 cache f1 vq).1.1 = [] →
          (tool_search_restaurants ranker1 cache f1 vq).2 = cache) := by
  intro r1 r2 cache f1 f2 vq hkey
  unfold tool_search_restaurants
  rw [hkey]
  cases hc : cacheGet cache (search_cache_key f1 vq) with
  | some cached =>
    simp only [hc]
    exact ⟨fun _ => trivial, fun _ => trivial⟩
  | none =>
    simp only [hc]
    cases hres : (r1 f1 vq).isEmpty with
    | true =>
      refine ⟨fun hne => absurd (List.isEmpty_iff.mp hres) hne, fun _ => ?_⟩
      simp
    | false =>
      refine ⟨fun _ => ?_, fun hnil => ?_⟩
      · simp [cacheGet_head]
      · rw [hnil] at hres
        simp at hres

/-- Witness for C9 at a concrete input: the second call with a ranker that
would return nothing still delivers the first call's cached non-empty list. -/
theorem search_cache_hit_witness :
    tool_search_restaurants (fun _ _ => [])
        (tool_search_restaurants (fun _ _ => [{ id := 1, name := "R" }]) [] {} "pizza").2
        {} "pizza"
      = (((tool_search_restaurants (fun _ _ => [{ id := 1, name := "R" }]) [] {} "pizza").1.1,
          true),
         (tool_search_restaurants (fun _ _ => [{ id := 1, name := "R" }]) [] {} "pizza").2) :=
  (search_cache_hit_returns_identical_list (fun _ _ => [{ id := 1, name := "R" }])
      (fun _ _ => []) [] {} {} "pizza" rfl).1 (by decide)

/- ═══════════════ recommendation feed (C10) ═══════════════ -/

/-- C10: every candidate built by `_fetch_candidates` still carries the
schema defaults `allergy_safe = True` and `allergy_warnings = []` when
`FitScorer.score` runs on it in step 3 of the feed pipeline (AllergyGuard
only runs in step 5), so the allergy-safety dimension contributes exactly 10
points — with the "Safe for your allergy profile" tag — for every candidate,
whatever the user's allergies are (the dimension never reads the user). -/
theorem feed_allergy_dimension_always_full_points :
    ∀ (row : Row),
      (fetch_candidate_row row).allergy_safe = true ∧
      (fetch_candidate_row row).allergy_warnings = [] ∧
      score_allergy (fetch_candidate_row row)
        = (10, some { label := "Safe for your allergy profile", type := "allergy_safe" }) := by
  intro row
  exact ⟨rfl, rfl, rfl⟩

end Kairos
